import Mathlib

/-!
Shallow embedding of github.com/jetsetilly/imgui-go-examples.

The embedded code comes from:
  - internal/platforms/sdl.go   (SDL platform: constructor, event processing, key maps)
  - the GLFW platform source    (constructor, callbacks, key map)
  - internal/renderers/OpenGL3.go (renderer: constructor, Render, device-object lifecycle)

Machine integers are modelled as Int/Nat (no overflow is reachable in the
embedded code paths: key codes and GL enums are small constants), float32
values as Rat.  Calls into the imgui library and into OpenGL are modelled as
explicit traces; the OpenGL context is modelled as an explicit state record.
-/

namespace ImguiExamples

/-- The imgui key enumeration (imgui.ImguiKey), restricted to the
constructors the two platform key maps mention.  KeyNone is imgui's null
key. -/
inductive ImguiKey where
  | KeyNone
  | KeyTab | KeyLeftArrow | KeyRightArrow | KeyUpArrow | KeyDownArrow
  | KeyPageUp | KeyPageDown | KeyHome | KeyEnd | KeyInsert | KeyDelete
  | KeyBackspace | KeySpace | KeyEnter | KeyEscape
  | KeyApostrophe | KeyComma | KeyMinus | KeyPeriod | KeySlash
  | KeySemicolon | KeyEqual | KeyLeftBracket | KeyBackslash
  | KeyRightBracket | KeyGraveAccent | KeyOem102
  | KeyCapsLock | KeyScrollLock | KeyNumLock | KeyPrintScreen | KeyPause
  | KeyKeypad0 | KeyKeypad1 | KeyKeypad2 | KeyKeypad3 | KeyKeypad4
  | KeyKeypad5 | KeyKeypad6 | KeyKeypad7 | KeyKeypad8 | KeyKeypad9
  | KeyKeypadDecimal | KeyKeypadDivide | KeyKeypadMultiply
  | KeyKeypadSubtract | KeyKeypadAdd | KeyKeypadEnter | KeyKeypadEqual
  | KeyLeftCtrl | KeyLeftShift | KeyLeftAlt | KeyLeftSuper
  | KeyRightCtrl | KeyRightShift | KeyRightAlt | KeyRightSuper
  | KeyMenu
  | Key0 | Key1 | Key2 | Key3 | Key4 | Key5 | Key6 | Key7 | Key8 | Key9
  | KeyA | KeyB | KeyC | KeyD | KeyE | KeyF | KeyG | KeyH | KeyI | KeyJ
  | KeyK | KeyL | KeyM | KeyN | KeyO | KeyP | KeyQ | KeyR | KeyS | KeyT
  | KeyU | KeyV | KeyW | KeyX | KeyY | KeyZ
  | KeyF1 | KeyF2 | KeyF3 | KeyF4 | KeyF5 | KeyF6 | KeyF7 | KeyF8
  | KeyF9 | KeyF10 | KeyF11 | KeyF12 | KeyF13 | KeyF14 | KeyF15 | KeyF16
  | KeyF17 | KeyF18 | KeyF19 | KeyF20 | KeyF21 | KeyF22 | KeyF23 | KeyF24
  | KeyAppBack | KeyAppForward
  | KeyModCtrl | KeyModShift | KeyModAlt | KeyModSuper
deriving DecidableEq, Repr

/-- First-match lookup of a code in an association list; a Go `switch` over
pairwise-distinct constant cases is exactly this. -/
def lookupKey : List (Int × ImguiKey) → Int → Option ImguiKey
  | [], _ => none
  | (k, v) :: rest, c => if c = k then some v else lookupKey rest c

/-- The keycode cases of the `switch keycode` in sdl2KeyEventToImguiKey
(internal/platforms/sdl.go), in source order, with the actual SDL2 keycode
constant values (codes derived from scancodes carry bit 30, i.e. an offset
of 1073741824). -/
def sdlKeycodeMap : List (Int × ImguiKey) := [
  (9, ImguiKey.KeyTab),
  (1073741904, ImguiKey.KeyLeftArrow),
  (1073741903, ImguiKey.KeyRightArrow),
  (1073741906, ImguiKey.KeyUpArrow),
  (1073741905, ImguiKey.KeyDownArrow),
  (1073741899, ImguiKey.KeyPageUp),
  (1073741902, ImguiKey.KeyPageDown),
  (1073741898, ImguiKey.KeyHome),
  (1073741901, ImguiKey.KeyEnd),
  (1073741897, ImguiKey.KeyInsert),
  (127, ImguiKey.KeyDelete),
  (8, ImguiKey.KeyBackspace),
  (32, ImguiKey.KeySpace),
  (13, ImguiKey.KeyEnter),
  (27, ImguiKey.KeyEscape),
  (44, ImguiKey.KeyComma),
  (46, ImguiKey.KeyPeriod),
  (59, ImguiKey.KeySemicolon),
  (1073741881, ImguiKey.KeyCapsLock),
  (1073741895, ImguiKey.KeyScrollLock),
  (1073741907, ImguiKey.KeyNumLock),
  (1073741894, ImguiKey.KeyPrintScreen),
  (1073741896, ImguiKey.KeyPause),
  (1073741922, ImguiKey.KeyKeypad0),
  (1073741913, ImguiKey.KeyKeypad1),
  (1073741914, ImguiKey.KeyKeypad2),
  (1073741915, ImguiKey.KeyKeypad3),
  (1073741916, ImguiKey.KeyKeypad4),
  (1073741917, ImguiKey.KeyKeypad5),
  (1073741918, ImguiKey.KeyKeypad6),
  (1073741919, ImguiKey.KeyKeypad7),
  (1073741920, ImguiKey.KeyKeypad8),
  (1073741921, ImguiKey.KeyKeypad9),
  (1073741923, ImguiKey.KeyKeypadDecimal),
  (1073741908, ImguiKey.KeyKeypadDivide),
  (1073741909, ImguiKey.KeyKeypadMultiply),
  (1073741910, ImguiKey.KeyKeypadSubtract),
  (1073741911, ImguiKey.KeyKeypadAdd),
  (1073741912, ImguiKey.KeyKeypadEnter),
  (1073741927, ImguiKey.KeyKeypadEqual),
  (1073742048, ImguiKey.KeyLeftCtrl),
  (1073742049, ImguiKey.KeyLeftShift),
  (1073742050, ImguiKey.KeyLeftAlt),
  (1073742051, ImguiKey.KeyLeftSuper),
  (1073742052, ImguiKey.KeyRightCtrl),
  (1073742053, ImguiKey.KeyRightShift),
  (1073742054, ImguiKey.KeyRightAlt),
  (1073742055, ImguiKey.KeyRightSuper),
  (1073741925, ImguiKey.KeyMenu),
  (48, ImguiKey.Key0), (49, ImguiKey.Key1), (50, ImguiKey.Key2), (51, ImguiKey.Key3), (52, ImguiKey.Key4),
  (53, ImguiKey.Key5), (54, ImguiKey.Key6), (55, ImguiKey.Key7), (56, ImguiKey.Key8), (57, ImguiKey.Key9),
  (97, ImguiKey.KeyA), (98, ImguiKey.KeyB), (99, ImguiKey.KeyC), (100, ImguiKey.KeyD), (101, ImguiKey.KeyE),
  (102, ImguiKey.KeyF), (103, ImguiKey.KeyG), (104, ImguiKey.KeyH), (105, ImguiKey.KeyI), (106, ImguiKey.KeyJ),
  (107, ImguiKey.KeyK), (108, ImguiKey.KeyL), (109, ImguiKey.KeyM), (110, ImguiKey.KeyN), (111, ImguiKey.KeyO),
  (112, ImguiKey.KeyP), (113, ImguiKey.KeyQ), (114, ImguiKey.KeyR), (115, ImguiKey.KeyS), (116, ImguiKey.KeyT),
  (117, ImguiKey.KeyU), (118, ImguiKey.KeyV), (119, ImguiKey.KeyW), (120, ImguiKey.KeyX), (121, ImguiKey.KeyY),
  (122, ImguiKey.KeyZ),
  (1073741882, ImguiKey.KeyF1), (1073741883, ImguiKey.KeyF2), (1073741884, ImguiKey.KeyF3),
  (1073741885, ImguiKey.KeyF4), (1073741886, ImguiKey.KeyF5), (1073741887, ImguiKey.KeyF6),
  (1073741888, ImguiKey.KeyF7), (1073741889, ImguiKey.KeyF8), (1073741890, ImguiKey.KeyF9),
  (1073741891, ImguiKey.KeyF10), (1073741892, ImguiKey.KeyF11), (1073741893, ImguiKey.KeyF12),
  (1073741928, ImguiKey.KeyF13), (1073741929, ImguiKey.KeyF14), (1073741930, ImguiKey.KeyF15),
  (1073741931, ImguiKey.KeyF16), (1073741932, ImguiKey.KeyF17), (1073741933, ImguiKey.KeyF18),
  (1073741934, ImguiKey.KeyF19), (1073741935, ImguiKey.KeyF20), (1073741936, ImguiKey.KeyF21),
  (1073741937, ImguiKey.KeyF22), (1073741938, ImguiKey.KeyF23), (1073741939, ImguiKey.KeyF24),
  (1073742094, ImguiKey.KeyAppBack),
  (1073742095, ImguiKey.KeyAppForward)]

/-- The scancode fallback cases of the `switch scancode` in
sdl2KeyEventToImguiKey (internal/platforms/sdl.go), in source order, with
the actual SDL2 scancode constant values. -/
def sdlScancodeMap : List (Int × ImguiKey) := [
  (53, ImguiKey.KeyGraveAccent),
  (45, ImguiKey.KeyMinus),
  (46, ImguiKey.KeyEqual),
  (47, ImguiKey.KeyLeftBracket),
  (48, ImguiKey.KeyRightBracket),
  (100, ImguiKey.KeyOem102),
  (49, ImguiKey.KeyBackslash),
  (51, ImguiKey.KeySemicolon),
  (52, ImguiKey.KeyApostrophe),
  (54, ImguiKey.KeyComma),
  (55, ImguiKey.KeyPeriod),
  (56, ImguiKey.KeySlash)]

/-- sdl2KeyEventToImguiKey (internal/platforms/sdl.go): first the keycode
switch, then the scancode fallback switch, then imgui.KeyNone. -/
def sdl2KeyEventToImguiKey (keycode scancode : Int) : ImguiKey :=
  match lookupKey sdlKeycodeMap keycode with
  | some k => k
  | none =>
    -- Fallback to scancode
    match lookupKey sdlScancodeMap scancode with
    | some k => k
    | none => ImguiKey.KeyNone

/-- The cases of the `switch key` in glfwKeyEventToImguiKey (GLFW platform
source), in source order, with the actual GLFW key constant values. -/
def glfwKeyMap : List (Int × ImguiKey) := [
  (258, ImguiKey.KeyTab),
  (263, ImguiKey.KeyLeftArrow),
  (262, ImguiKey.KeyRightArrow),
  (265, ImguiKey.KeyUpArrow),
  (264, ImguiKey.KeyDownArrow),
  (266, ImguiKey.KeyPageUp),
  (267, ImguiKey.KeyPageDown),
  (268, ImguiKey.KeyHome),
  (269, ImguiKey.KeyEnd),
  (260, ImguiKey.KeyInsert),
  (261, ImguiKey.KeyDelete),
  (259, ImguiKey.KeyBackspace),
  (32, ImguiKey.KeySpace),
  (257, ImguiKey.KeyEnter),
  (256, ImguiKey.KeyEscape),
  (39, ImguiKey.KeyApostrophe),
  (44, ImguiKey.KeyComma),
  (45, ImguiKey.KeyMinus),
  (46, ImguiKey.KeyPeriod),
  (47, ImguiKey.KeySlash),
  (59, ImguiKey.KeySemicolon),
  (61, ImguiKey.KeyEqual),
  (91, ImguiKey.KeyLeftBracket),
  (92, ImguiKey.KeyBackslash),
  (161, ImguiKey.KeyOem102),
  (162, ImguiKey.KeyOem102),
  (93, ImguiKey.KeyRightBracket),
  (96, ImguiKey.KeyGraveAccent),
  (280, ImguiKey.KeyCapsLock),
  (281, ImguiKey.KeyScrollLock),
  (282, ImguiKey.KeyNumLock),
  (283, ImguiKey.KeyPrintScreen),
  (284, ImguiKey.KeyPause),
  (320, ImguiKey.KeyKeypad0), (321, ImguiKey.KeyKeypad1), (322, ImguiKey.KeyKeypad2),
  (323, ImguiKey.KeyKeypad3), (324, ImguiKey.KeyKeypad4), (325, ImguiKey.KeyKeypad5),
  (326, ImguiKey.KeyKeypad6), (327, ImguiKey.KeyKeypad7), (328, ImguiKey.KeyKeypad8),
  (329, ImguiKey.KeyKeypad9),
  (330, ImguiKey.KeyKeypadDecimal),
  (331, ImguiKey.KeyKeypadDivide),
  (332, ImguiKey.KeyKeypadMultiply),
  (333, ImguiKey.KeyKeypadSubtract),
  (334, ImguiKey.KeyKeypadAdd),
  (335, ImguiKey.KeyKeypadEnter),
  (336, ImguiKey.KeyKeypadEqual),
  (340, ImguiKey.KeyLeftShift),
  (341, ImguiKey.KeyLeftCtrl),
  (342, ImguiKey.KeyLeftAlt),
  (343, ImguiKey.KeyLeftSuper),
  (344, ImguiKey.KeyRightShift),
  (345, ImguiKey.KeyRightCtrl),
  (346, ImguiKey.KeyRightAlt),
  (347, ImguiKey.KeyRightSuper),
  (348, ImguiKey.KeyMenu),
  (48, ImguiKey.Key0), (49, ImguiKey.Key1), (50, ImguiKey.Key2), (51, ImguiKey.Key3), (52, ImguiKey.Key4),
  (53, ImguiKey.Key5), (54, ImguiKey.Key6), (55, ImguiKey.Key7), (56, ImguiKey.Key8), (57, ImguiKey.Key9),
  (65, ImguiKey.KeyA), (66, ImguiKey.KeyB), (67, ImguiKey.KeyC), (68, ImguiKey.KeyD), (69, ImguiKey.KeyE),
  (70, ImguiKey.KeyF), (71, ImguiKey.KeyG), (72, ImguiKey.KeyH), (73, ImguiKey.KeyI), (74, ImguiKey.KeyJ),
  (75, ImguiKey.KeyK), (76, ImguiKey.KeyL), (77, ImguiKey.KeyM), (78, ImguiKey.KeyN), (79, ImguiKey.KeyO),
  (80, ImguiKey.KeyP), (81, ImguiKey.KeyQ), (82, ImguiKey.KeyR), (83, ImguiKey.KeyS), (84, ImguiKey.KeyT),
  (85, ImguiKey.KeyU), (86, ImguiKey.KeyV), (87, ImguiKey.KeyW), (88, ImguiKey.KeyX), (89, ImguiKey.KeyY),
  (90, ImguiKey.KeyZ),
  (290, ImguiKey.KeyF1), (291, ImguiKey.KeyF2), (292, ImguiKey.KeyF3), (293, ImguiKey.KeyF4),
  (294, ImguiKey.KeyF5), (295, ImguiKey.KeyF6), (296, ImguiKey.KeyF7), (297, ImguiKey.KeyF8),
  (298, ImguiKey.KeyF9), (299, ImguiKey.KeyF10), (300, ImguiKey.KeyF11), (301, ImguiKey.KeyF12),
  (302, ImguiKey.KeyF13), (303, ImguiKey.KeyF14), (304, ImguiKey.KeyF15), (305, ImguiKey.KeyF16),
  (306, ImguiKey.KeyF17), (307, ImguiKey.KeyF18), (308, ImguiKey.KeyF19), (309, ImguiKey.KeyF20),
  (310, ImguiKey.KeyF21), (311, ImguiKey.KeyF22), (312, ImguiKey.KeyF23), (313, ImguiKey.KeyF24)]

/-- glfwKeyEventToImguiKey (GLFW platform source): a single switch on the
key code with default imgui.KeyNone; the scancode argument is never read. -/
def glfwKeyEventToImguiKey (key : Int) (scancode : Int) : ImguiKey :=
  match lookupKey glfwKeyMap key with
  | some k => k
  | none => ImguiKey.KeyNone

lemma lookupKey_eq_none {m : List (Int × ImguiKey)} {c : Int}
    (h : c ∉ m.map Prod.fst) : lookupKey m c = none := by
  induction m with
  | nil => rfl
  | cons hd tl ih =>
    simp only [List.map_cons, List.mem_cons, not_or] at h
    simp only [lookupKey, if_neg h.1]
    exact ih h.2

lemma lookupKey_isSome {m : List (Int × ImguiKey)} {c : Int}
    (h : c ∈ m.map Prod.fst) : ∃ v, lookupKey m c = some v := by
  induction m with
  | nil => simp at h
  | cons hd tl ih =>
    by_cases hc : c = hd.1
    · exact ⟨hd.2, by simp [lookupKey, hc]⟩
    · simp only [List.map_cons, List.mem_cons, hc, false_or] at h
      obtain ⟨v, hv⟩ := ih h
      exact ⟨v, by simp [lookupKey, hc, hv]⟩

/-- Claim C1: for every platform key event whose key code is not one of the
explicitly enumerated mapped key codes (and, for the SDL platform, whose
scancode is also not in the scancode fallback table), the key-translation
functions sdl2KeyEventToImguiKey and glfwKeyEventToImguiKey return the null
key imgui.KeyNone. -/
theorem unmapped_key_event_translates_to_KeyNone :
    (∀ keycode scancode : Int,
        keycode ∉ sdlKeycodeMap.map Prod.fst →
        scancode ∉ sdlScancodeMap.map Prod.fst →
        sdl2KeyEventToImguiKey keycode scancode = ImguiKey.KeyNone) ∧
    (∀ key scancode : Int,
        key ∉ glfwKeyMap.map Prod.fst →
        glfwKeyEventToImguiKey key scancode = ImguiKey.KeyNone) := by
  constructor
  · intro kc sc h1 h2
    simp [sdl2KeyEventToImguiKey, lookupKey_eq_none h1, lookupKey_eq_none h2]
  · intro k sc h
    simp [glfwKeyEventToImguiKey, lookupKey_eq_none h]

/-- Witness for C1 at the concrete unmapped code 1. -/
theorem unmapped_key_event_translates_to_KeyNone_witness :
    (1 : Int) ∉ sdlKeycodeMap.map Prod.fst ∧
    (1 : Int) ∉ sdlScancodeMap.map Prod.fst ∧
    (1 : Int) ∉ glfwKeyMap.map Prod.fst ∧
    sdl2KeyEventToImguiKey 1 1 = ImguiKey.KeyNone ∧
    glfwKeyEventToImguiKey 1 1 = ImguiKey.KeyNone :=
  ⟨by decide, by decide, by decide,
   unmapped_key_event_translates_to_KeyNone.1 1 1 (by decide) (by decide),
   unmapped_key_event_translates_to_KeyNone.2 1 1 (by decide)⟩

/-- Claim C4 fails on the code: for the SDL platform two key events carrying
the same key code 0 (SDLK_UNKNOWN) but different scancodes (SCANCODE_GRAVE
versus scancode 0) translate to different imgui keys, because an unmapped
key code falls back to the scancode table. -/
theorem sdl_key_translation_uses_scancode :
    sdl2KeyEventToImguiKey 0 53 = ImguiKey.KeyGraveAccent ∧
    sdl2KeyEventToImguiKey 0 0 = ImguiKey.KeyNone ∧
    sdl2KeyEventToImguiKey 0 53 ≠ sdl2KeyEventToImguiKey 0 0 := by
  refine ⟨by decide, by decide, by decide⟩

/-- Claim C4 (amended): the GLFW translation is a function of the key code
alone; the SDL translation is a function of the key code alone whenever the
key code is one of the mapped key codes, while for unmapped key codes the
scancode fallback decides the result. -/
theorem key_translation_scancode_independence :
    (∀ key s1 s2 : Int,
        glfwKeyEventToImguiKey key s1 = glfwKeyEventToImguiKey key s2) ∧
    (∀ keycode s1 s2 : Int, keycode ∈ sdlKeycodeMap.map Prod.fst →
        sdl2KeyEventToImguiKey keycode s1 = sdl2KeyEventToImguiKey keycode s2) := by
  constructor
  · intro k s1 s2
    rfl
  · intro kc s1 s2 h
    obtain ⟨v, hv⟩ := lookupKey_isSome h
    simp [sdl2KeyEventToImguiKey, hv]

/-- Witness for the amended C4 at the concrete mapped key code 9 (SDLK_TAB). -/
theorem key_translation_scancode_independence_witness :
    (9 : Int) ∈ sdlKeycodeMap.map Prod.fst ∧
    sdl2KeyEventToImguiKey 9 0 = sdl2KeyEventToImguiKey 9 53 :=
  ⟨by decide, key_translation_scancode_independence.2 9 0 53 (by decide)⟩

/-! ### SDL platform state and event processing (internal/platforms/sdl.go) -/

/-- A call into the imgui library made by the platform layer (the imgui.IO
methods the platform sources invoke). -/
inductive ImguiCall where
  | addMouseWheelDelta (x y : Rat)
  | addKeyEvent (key : ImguiKey) (down : Bool)
  | addInputCharacters (text : String)
  | setMouseButtonDown (index : Nat) (down : Bool)
  | setMousePosition (x y : Rat)
  | setDeltaTime (dt : Rat)
  | setDisplaySize (x y : Rat)
deriving DecidableEq, Repr

/-- The mutable fields of the SDL struct (internal/platforms/sdl.go); the
buttonsDown array ([mouseButtonCount]bool with mouseButtonCount = 3, the
indices mouseButtonPrimary/Secondary/Tertiary being 0/1/2, declared in a
platforms source file not included under src) is modelled as a function. -/
structure SDLState where
  window : Option Nat
  shouldStop : Bool
  time : Nat
  buttonsDown : Nat → Bool

/-- Pointwise update of the buttonsDown array. -/
def setButton (f : Nat → Bool) (i : Nat) (v : Bool) : Nat → Bool :=
  fun j => if j = i then v else f j

/-- An SDL event as consumed by SDL.processEvent.  Wheel deltas X/Y are the
int32 fields of sdl.MouseWheelEvent, button is the uint8 button code of
sdl.MouseButtonEvent, key events carry Keysym.Sym, Keysym.Scancode and
Keysym.Mod.  Events of any other type fall through the switch. -/
inductive SDLEvent where
  | quit
  | mouseWheel (x y : Int)
  | mouseButtonDown (button : Nat)
  | textInput (text : String)
  | keyDown (keycode scancode : Int) (mods : Nat)
  | keyUp (keycode scancode : Int) (mods : Nat)
  | other
deriving DecidableEq, Repr

/-- sdl2SetImguiModKey (internal/platforms/sdl.go): reports the four
modifier keys from the SDL modifier bitmask (KMOD_CTRL = 0x00c0,
KMOD_SHIFT = 0x0003, KMOD_ALT = 0x0300, KMOD_GUI = 0x0c00). -/
def sdl2SetImguiModKey (mods : Nat) : List ImguiCall :=
  [ImguiCall.addKeyEvent ImguiKey.KeyModCtrl (mods &&& 192 != 0),
   ImguiCall.addKeyEvent ImguiKey.KeyModShift (mods &&& 3 != 0),
   ImguiCall.addKeyEvent ImguiKey.KeyModAlt (mods &&& 768 != 0),
   ImguiCall.addKeyEvent ImguiKey.KeyModSuper (mods &&& 3072 != 0)]

/-- SDL.processEvent (internal/platforms/sdl.go).  Wheel deltas are clamped
to -1/0/+1 by the two if/else-if chains; button codes are sdl.BUTTON_LEFT=1,
BUTTON_RIGHT=3, BUTTON_MIDDLE=2. -/
def processEvent (s : SDLState) (e : SDLEvent) : SDLState × List ImguiCall :=
  match e with
  | SDLEvent.quit => ({ s with shouldStop := true }, [])
  | SDLEvent.mouseWheel x y =>
    let deltaX : Rat := if x > 0 then 1 else if x < 0 then -1 else 0
    let deltaY : Rat := if y > 0 then 1 else if y < 0 then -1 else 0
    (s, [ImguiCall.addMouseWheelDelta deltaX deltaY])
  | SDLEvent.mouseButtonDown b =>
    if b = 1 then ({ s with buttonsDown := setButton s.buttonsDown 0 true }, [])
    else if b = 3 then ({ s with buttonsDown := setButton s.buttonsDown 1 true }, [])
    else if b = 2 then ({ s with buttonsDown := setButton s.buttonsDown 2 true }, [])
    else (s, [])
  | SDLEvent.textInput t => (s, [ImguiCall.addInputCharacters t])
  | SDLEvent.keyDown kc sc mods =>
    (s, ImguiCall.addKeyEvent (sdl2KeyEventToImguiKey kc sc) true ::
        sdl2SetImguiModKey mods)
  | SDLEvent.keyUp kc sc mods =>
    (s, ImguiCall.addKeyEvent (sdl2KeyEventToImguiKey kc sc) false ::
        sdl2SetImguiModKey mods)
  | SDLEvent.other => (s, [])

/-- GLFW.mouseScrollChange (GLFW platform source): forwards the scroll
offsets directly to AddMouseWheelDelta. -/
def mouseScrollChange (x y : Rat) : List ImguiCall :=
  [ImguiCall.addMouseWheelDelta x y]

/-- The per-frame inputs SDL.NewFrame reads from SDL (window size,
performance counter/frequency, mouse position and button state mask). -/
structure FrameInput where
  displayW : Rat
  displayH : Rat
  frequency : Nat
  currentTime : Nat
  mouseX : Rat
  mouseY : Rat
  mouseState : Nat

/-- SDL.NewFrame (internal/platforms/sdl.go): pushes display size, delta
time (fallback 1/60 on the first frame) and mouse state; the button mask
bits are sdl.Button(b) = 1 shifted left by b-1, i.e. 1/4/2 for
left/right/middle, and every buttonsDown entry is reset to false. -/
def newFrame (s : SDLState) (f : FrameInput) : SDLState × List ImguiCall :=
  let dtCall := if s.time > 0 then
      ImguiCall.setDeltaTime (((f.currentTime - s.time : Nat) : Rat) / (f.frequency : Rat))
    else
      ImguiCall.setDeltaTime (1 / 60)
  let b0 := s.buttonsDown 0 || (f.mouseState &&& 1 != 0)
  let b1 := s.buttonsDown 1 || (f.mouseState &&& 4 != 0)
  let b2 := s.buttonsDown 2 || (f.mouseState &&& 2 != 0)
  ({ s with time := f.currentTime, buttonsDown := fun _ => false },
   [ImguiCall.setDisplaySize f.displayW f.displayH, dtCall,
    ImguiCall.setMousePosition f.mouseX f.mouseY,
    ImguiCall.setMouseButtonDown 0 b0,
    ImguiCall.setMouseButtonDown 1 b1,
    ImguiCall.setMouseButtonDown 2 b2])

/-- A release/destroy call issued to SDL or OpenGL during disposal. -/
inductive ReleaseCall where
  | destroyWindow (w : Nat)
  | sdlQuitCall
  | deleteBufferCall (h : Nat)
  | detachShaderCall (p sh : Nat)
  | deleteShaderCall (h : Nat)
  | deleteProgramCall (h : Nat)
  | deleteTextureCall (h : Nat)
  | clearFontTextureCall
deriving DecidableEq, Repr

/-- SDL.Dispose (internal/platforms/sdl.go): destroys the window if still
present, clears the handle, and always calls sdl.Quit. -/
def sdlDispose (s : SDLState) : SDLState × List ReleaseCall :=
  match s.window with
  | some w => ({ s with window := none }, [ReleaseCall.destroyWindow w, ReleaseCall.sdlQuitCall])
  | none => (s, [ReleaseCall.sdlQuitCall])

/-- An operation of the SDL platform that can run after construction (the
exported methods that touch the SDL struct state). -/
inductive SDLOp where
  | procEvent (e : SDLEvent)
  | frame (f : FrameInput)
  | disposeOp
  | postRenderOp

/-- The state component of one SDL platform operation. -/
def sdlStep (s : SDLState) (op : SDLOp) : SDLState :=
  match op with
  | SDLOp.procEvent e => (processEvent s e).1
  | SDLOp.frame f => (newFrame s f).1
  | SDLOp.disposeOp => (sdlDispose s).1
  | SDLOp.postRenderOp => s

lemma sdlStep_shouldStop_mono (s : SDLState) (op : SDLOp)
    (h : s.shouldStop = true) : (sdlStep s op).shouldStop = true := by
  cases op with
  | procEvent e =>
    cases e with
    | mouseButtonDown b =>
      simp only [sdlStep, processEvent]
      split
      · exact h
      · split
        · exact h
        · split
          · exact h
          · exact h
    | _ => simp [sdlStep, processEvent, h]
  | frame f => simpa [sdlStep, newFrame] using h
  | disposeOp =>
    cases hw : s.window with
    | some w => simpa [sdlStep, sdlDispose, hw] using h
    | none => simpa [sdlStep, sdlDispose, hw] using h
  | postRenderOp => simpa [sdlStep] using h

lemma sdlSteps_shouldStop_mono (ops : List SDLOp) :
    ∀ s : SDLState, s.shouldStop = true →
      (ops.foldl sdlStep s).shouldStop = true := by
  induction ops with
  | nil => intro s h; exact h
  | cons op rest ih =>
    intro s h
    simpa using ih (sdlStep s op) (sdlStep_shouldStop_mono s op h)

/-- Claim C9: once the SDL platform has processed a QUIT event, ShouldStop
returns true after every subsequent sequence of platform operations: no
operation ever resets the shouldStop flag. -/
theorem shouldStop_stays_true_after_quit :
    ∀ (s : SDLState) (ops : List SDLOp),
      (ops.foldl sdlStep (sdlStep s (SDLOp.procEvent SDLEvent.quit))).shouldStop = true := by
  intro s ops
  exact sdlSteps_shouldStop_mono ops _ rfl

/-- A concrete SDL platform state used by counterexamples. -/
def sdlStateExample : SDLState :=
  { window := some 1, shouldStop := false, time := 0, buttonsDown := fun _ => false }

/-- Claim C5 fails on the code: an SDL mouse-wheel event with vertical
delta 2 is forwarded to AddMouseWheelDelta as 1, not 2: the SDL platform
clamps each wheel delta to its sign instead of passing it through. -/
theorem sdl_wheel_delta_clamped :
    (processEvent sdlStateExample (SDLEvent.mouseWheel 0 2)).2
      = [ImguiCall.addMouseWheelDelta 0 1] ∧
    (processEvent sdlStateExample (SDLEvent.mouseWheel 0 2)).2
      ≠ [ImguiCall.addMouseWheelDelta 0 2] := by
  refine ⟨rfl, by decide⟩

/-- Claim C5 (amended): the GLFW platform forwards scroll deltas unchanged
to AddMouseWheelDelta; the SDL platform forwards only the sign (-1, 0 or 1)
of each wheel delta. -/
theorem mouse_wheel_forwarding :
    (∀ x y : Rat, mouseScrollChange x y = [ImguiCall.addMouseWheelDelta x y]) ∧
    (∀ (s : SDLState) (x y : Int),
        (processEvent s (SDLEvent.mouseWheel x y)).2
          = [ImguiCall.addMouseWheelDelta ((x.sign : Int) : Rat) ((y.sign : Int) : Rat)]) := by
  constructor
  · intro x y
    rfl
  · intro s x y
    have hx : ((x.sign : Int) : Rat) = if x > 0 then 1 else if x < 0 then -1 else 0 := by
      rcases lt_trichotomy x 0 with h | h | h
      · simp [Int.sign_eq_neg_one_iff_neg.mpr h, h, not_lt_of_gt h]
      · simp [h]
      · simp [Int.sign_eq_one_iff_pos.mpr h, h]
    have hy : ((y.sign : Int) : Rat) = if y > 0 then 1 else if y < 0 then -1 else 0 := by
      rcases lt_trichotomy y 0 with h | h | h
      · simp [Int.sign_eq_neg_one_iff_neg.mpr h, h, not_lt_of_gt h]
      · simp [h]
      · simp [Int.sign_eq_one_iff_pos.mpr h, h]
    simp [processEvent, hx, hy]

/-! ### Constructors and their failure handling -/

/-- A Go error value as the constructors produce them: either a
fmt.Errorf("...: %w", err) wrapping a library error inside a descriptive
message, or a plain sentinel error value returned as-is. -/
inductive GoError where
  | wrapped (msg : String) (cause : String)
  | sentinel (msg : String)
deriving DecidableEq, Repr

/-- Whether an error value wraps an underlying library error. -/
def GoError.isWrapped : GoError → Bool
  | GoError.wrapped _ _ => true
  | GoError.sentinel _ => false

/-- Modelled from the spec: ErrUnsupportedClientAPI is a package-level
error value of the platforms package declared in a source file not included
under src; NewSDL and NewGLFW return it as-is from their default switch
branch, where no library call has failed, so it wraps no library error. -/
def ErrUnsupportedClientAPI : GoError := GoError.sentinel "unsupported ClientAPI"

/-- The outcomes of the SDL library calls NewSDL makes (none / Except.ok
meaning success). -/
structure SDLEnv where
  initError : Option String
  createWindowResult : Except String Nat
  glCreateContextResult : Except String Nat
  glMakeCurrentError : Option String

/-- The platform resources NewSDL acquires: whether SDL is initialized and
which window exists. -/
structure ResState where
  sdlActive : Bool
  window : Option Nat
deriving DecidableEq, Repr

/-- The resource state before any constructor ran. -/
def initialResState : ResState := { sdlActive := false, window := none }

/-- NewSDL (internal/platforms/sdl.go), with its effect on the platform
resources made explicit.  Failure paths follow the source: an Init error
is wrapped and nothing was acquired; a CreateWindow error wraps after
sdl.Quit(); the default client-API branch and the two GL-context failures
call platform.Dispose(), which destroys the window and calls sdl.Quit.
The GLSetAttribute calls carry no modelled state. -/
def NewSDL (env : SDLEnv) (clientAPI : String) (r : ResState) :
    ResState × Option Nat × Option GoError :=
  match env.initError with
  | some e => (r, none, some (GoError.wrapped "failed to initialize SDL2" e))
  | none =>
    let r1 : ResState := { r with sdlActive := true }
    match env.createWindowResult with
    | Except.error e =>
      ({ r1 with sdlActive := false }, none,
       some (GoError.wrapped "failed to create window" e))
    | Except.ok w =>
      let r2 : ResState := { r1 with window := some w }
      if clientAPI = "OpenGL2" ∨ clientAPI = "OpenGL3" then
        match env.glCreateContextResult with
        | Except.error e =>
          ({ r2 with sdlActive := false, window := none }, none,
           some (GoError.wrapped "failed to create OpenGL context" e))
        | Except.ok _ctx =>
          match env.glMakeCurrentError with
          | some e =>
            ({ r2 with sdlActive := false, window := none }, none,
             some (GoError.wrapped "failed to set current OpenGL context" e))
          | none => (r2, some w, none)
      else
        ({ r2 with sdlActive := false, window := none }, none,
         some ErrUnsupportedClientAPI)

/-- The outcomes of the GLFW library calls NewGLFW makes. -/
structure GLFWEnv where
  initError : Option String
  createWindowResult : Except String Nat

/-- NewGLFW (GLFW platform source): wraps an Init error; the default
client-API branch terminates glfw and returns the sentinel; a CreateWindow
error is wrapped after glfw.Terminate(). -/
def NewGLFW (env : GLFWEnv) (clientAPI : String) : Option Nat × Option GoError :=
  match env.initError with
  | some e => (none, some (GoError.wrapped "failed to initialize glfw" e))
  | none =>
    if clientAPI = "OpenGL2" ∨ clientAPI = "OpenGL3" then
      match env.createWindowResult with
      | Except.error e => (none, some (GoError.wrapped "failed to create window" e))
      | Except.ok w => (some w, none)
    else (none, some ErrUnsupportedClientAPI)

/-- The OpenGL3 renderer struct (internal/renderers/OpenGL3.go). -/
structure GL3Renderer where
  glslVersion : String
  fontTexture : Nat
  shaderHandle : Nat
  vertHandle : Nat
  fragHandle : Nat
  attribLocationTex : Int
  attribLocationProjMtx : Int
  attribLocationPosition : Int
  attribLocationUV : Int
  attribLocationColor : Int
  vboHandle : Nat
  elementsHandle : Nat
deriving DecidableEq, Repr

/-- NewOpenGL3 (internal/renderers/OpenGL3.go): a gl.Init error is wrapped;
on success the renderer is built with glslVersion "#version 150" and the
device objects createDeviceObjects obtains from the GL driver (abstracted
as the deviceObjects argument). -/
def NewOpenGL3 (glInitError : Option String) (deviceObjects : GL3Renderer) :
    Option GL3Renderer × Option GoError :=
  match glInitError with
  | some e => (none, some (GoError.wrapped "failed to initialize OpenGL" e))
  | none => (some { deviceObjects with glslVersion := "#version 150" }, none)

/-- An SDL call environment in which every library call succeeds. -/
def goodSDLEnv : SDLEnv :=
  { initError := none, createWindowResult := Except.ok 7,
    glCreateContextResult := Except.ok 1, glMakeCurrentError := none }

/-- Claim C3 fails as stated: NewSDL invoked with the unsupported client
API "Vulkan" fails, yet its error is the sentinel ErrUnsupportedClientAPI,
which does not wrap any underlying library error. -/
theorem constructor_sentinel_error_not_wrapped :
    (NewSDL goodSDLEnv "Vulkan" initialResState).2.1 = none ∧
    (NewSDL goodSDLEnv "Vulkan" initialResState).2.2 = some ErrUnsupportedClientAPI ∧
    ErrUnsupportedClientAPI.isWrapped = false :=
  ⟨rfl, rfl, rfl⟩

/-- Claim C3 (amended): whenever NewSDL, NewGLFW or NewOpenGL3 fails it
returns a nil object together with a non-nil error, and on success a
non-nil object with a nil error (never both non-nil); every non-nil error
either wraps the underlying library error inside a descriptive message or
is the sentinel ErrUnsupportedClientAPI. -/
theorem constructor_error_discipline :
    (∀ (env : SDLEnv) (api : String) (r : ResState),
        ((NewSDL env api r).2.1.isSome ↔ (NewSDL env api r).2.2 = none) ∧
        (∀ e, (NewSDL env api r).2.2 = some e →
            e.isWrapped = true ∨ e = ErrUnsupportedClientAPI)) ∧
    (∀ (env : GLFWEnv) (api : String),
        ((NewGLFW env api).1.isSome ↔ (NewGLFW env api).2 = none) ∧
        (∀ e, (NewGLFW env api).2 = some e →
            e.isWrapped = true ∨ e = ErrUnsupportedClientAPI)) ∧
    (∀ (glInitError : Option String) (dev : GL3Renderer),
        ((NewOpenGL3 glInitError dev).1.isSome ↔ (NewOpenGL3 glInitError dev).2 = none) ∧
        (∀ e, (NewOpenGL3 glInitError dev).2 = some e → e.isWrapped = true)) := by
  refine ⟨?_, ?_, ?_⟩
  · intro env api r
    obtain ⟨ie, cw, gc, mc⟩ := env
    cases ie with
    | some e => simp [NewSDL, GoError.isWrapped]
    | none =>
      cases cw with
      | error e => simp [NewSDL, GoError.isWrapped]
      | ok w =>
        by_cases hapi : api = "OpenGL2" ∨ api = "OpenGL3"
        · cases gc with
          | error e => simp [NewSDL, hapi, GoError.isWrapped]
          | ok c =>
            cases mc with
            | some e => simp [NewSDL, hapi, GoError.isWrapped]
            | none => simp [NewSDL, hapi]
        · simp [NewSDL, hapi]
  · intro env api
    obtain ⟨ie, cw⟩ := env
    cases ie with
    | some e => simp [NewGLFW, GoError.isWrapped]
    | none =>
      by_cases hapi : api = "OpenGL2" ∨ api = "OpenGL3"
      · cases cw with
        | error e => simp [NewGLFW, hapi, GoError.isWrapped]
        | ok w => simp [NewGLFW, hapi]
      · simp [NewGLFW, hapi]
  · intro ge dev
    cases ge with
    | some e => simp [NewOpenGL3, GoError.isWrapped]
    | none => simp [NewOpenGL3]

/-- Witness for the amended C3 on a concrete failing NewSDL call. -/
theorem constructor_error_discipline_witness :
    (NewSDL { goodSDLEnv with initError := some "x" } "OpenGL2" initialResState).2.2
      = some (GoError.wrapped "failed to initialize SDL2" "x") ∧
    ((GoError.wrapped "failed to initialize SDL2" "x").isWrapped = true ∨
      GoError.wrapped "failed to initialize SDL2" "x" = ErrUnsupportedClientAPI) :=
  ⟨rfl,
   (constructor_error_discipline.1 { goodSDLEnv with initError := some "x" }
     "OpenGL2" initialResState).2 _ rfl⟩

/-- Claim C7: whenever NewSDL fails after SDL has been initialized (window
creation fails, the client API is unsupported, creating the OpenGL context
fails, or making it current fails), the final resource state has the
window destroyed and SDL shut down. -/
theorem sdl_failed_construction_releases_resources :
    ∀ (env : SDLEnv) (api : String),
      env.initError = none →
      (NewSDL env api initialResState).2.2.isSome = true →
      (NewSDL env api initialResState).1.window = none ∧
      (NewSDL env api initialResState).1.sdlActive = false := by
  intro env api hinit hfail
  obtain ⟨ie, cw, gc, mc⟩ := env
  simp only at hinit
  subst hinit
  cases cw with
  | error e => simp [NewSDL, initialResState]
  | ok w =>
    by_cases hapi : api = "OpenGL2" ∨ api = "OpenGL3"
    · cases gc with
      | error e => simp [NewSDL, hapi]
      | ok c =>
        cases mc with
        | some e => simp [NewSDL, hapi]
        | none => simp [NewSDL, hapi] at hfail
    · simp [NewSDL, hapi]

/-! ### Device-object disposal (internal/renderers/OpenGL3.go) -/

/-- OpenGL3.invalidateDeviceObjects (internal/renderers/OpenGL3.go),
followed line by line: each delete happens only when the corresponding
handle is non-zero, after which the handle is cleared to zero; detaching a
shader additionally requires the program handle to be non-zero; deleting
the font texture also clears the font atlas texture id. -/
def invalidateDeviceObjects (r : GL3Renderer) : GL3Renderer × List ReleaseCall :=
  let t1 := if r.vboHandle ≠ 0 then [ReleaseCall.deleteBufferCall r.vboHandle] else []
  let r := { r with vboHandle := 0 }
  let t2 := if r.elementsHandle ≠ 0 then [ReleaseCall.deleteBufferCall r.elementsHandle] else []
  let r := { r with elementsHandle := 0 }
  let t3 := if r.shaderHandle ≠ 0 ∧ r.vertHandle ≠ 0 then
      [ReleaseCall.detachShaderCall r.shaderHandle r.vertHandle] else []
  let t4 := if r.vertHandle ≠ 0 then [ReleaseCall.deleteShaderCall r.vertHandle] else []
  let r := { r with vertHandle := 0 }
  let t5 := if r.shaderHandle ≠ 0 ∧ r.fragHandle ≠ 0 then
      [ReleaseCall.detachShaderCall r.shaderHandle r.fragHandle] else []
  let t6 := if r.fragHandle ≠ 0 then [ReleaseCall.deleteShaderCall r.fragHandle] else []
  let r := { r with fragHandle := 0 }
  let t7 := if r.shaderHandle ≠ 0 then [ReleaseCall.deleteProgramCall r.shaderHandle] else []
  let r := { r with shaderHandle := 0 }
  let res8 := if r.fontTexture ≠ 0 then
      ([ReleaseCall.deleteTextureCall r.fontTexture, ReleaseCall.clearFontTextureCall],
       { r with fontTexture := 0 })
    else ([], r)
  (res8.2, t1 ++ t2 ++ t3 ++ t4 ++ t5 ++ t6 ++ t7 ++ res8.1)

/-- OpenGL3.Dispose just forwards to invalidateDeviceObjects. -/
def OpenGL3Dispose (r : GL3Renderer) : GL3Renderer × List ReleaseCall :=
  invalidateDeviceObjects r

/-- Whether a release call destroys or deletes a resource (as opposed to a
library shutdown, a shader detach, or clearing the stored texture id). -/
def ReleaseCall.isDestroyOrDelete : ReleaseCall → Bool
  | ReleaseCall.destroyWindow _ => true
  | ReleaseCall.deleteBufferCall _ => true
  | ReleaseCall.deleteShaderCall _ => true
  | ReleaseCall.deleteProgramCall _ => true
  | ReleaseCall.deleteTextureCall _ => true
  | ReleaseCall.sdlQuitCall => false
  | ReleaseCall.detachShaderCall _ _ => false
  | ReleaseCall.clearFontTextureCall => false

/-- Claim C8: Dispose is idempotent for the SDL platform and the OpenGL3
renderer: the first call releases the window, buffers, shaders, program and
font texture and clears the stored handles to nil or zero, and a second
Dispose call issues no further destroy or delete call for any
already-released resource. -/
theorem dispose_idempotent :
    ∀ (p : SDLState) (r : GL3Renderer),
      ((sdlDispose p).1.window = none ∧
        (sdlDispose (sdlDispose p).1).2.filter ReleaseCall.isDestroyOrDelete = []) ∧
      ((OpenGL3Dispose r).1.vboHandle = 0 ∧
        (OpenGL3Dispose r).1.elementsHandle = 0 ∧
        (OpenGL3Dispose r).1.vertHandle = 0 ∧
        (OpenGL3Dispose r).1.fragHandle = 0 ∧
        (OpenGL3Dispose r).1.shaderHandle = 0 ∧
        (OpenGL3Dispose r).1.fontTexture = 0 ∧
        (OpenGL3Dispose (OpenGL3Dispose r).1).2.filter ReleaseCall.isDestroyOrDelete = []) := by
  intro p r
  constructor
  · cases hw : p.window with
    | some w =>
      simp [sdlDispose, hw, ReleaseCall.isDestroyOrDelete]
    | none =>
      simp [sdlDispose, hw, ReleaseCall.isDestroyOrDelete]
  · by_cases hf : r.fontTexture = 0
    · simp [OpenGL3Dispose, invalidateDeviceObjects, hf, ReleaseCall.isDestroyOrDelete]
    · simp [OpenGL3Dispose, invalidateDeviceObjects, hf, ReleaseCall.isDestroyOrDelete]

/-- Witness for C7 on a concrete NewSDL call failing at GLCreateContext. -/
theorem sdl_failed_construction_releases_resources_witness :
    ({ goodSDLEnv with glCreateContextResult := Except.error "x" } : SDLEnv).initError = none ∧
    (NewSDL { goodSDLEnv with glCreateContextResult := Except.error "x" }
      "OpenGL2" initialResState).2.2.isSome = true ∧
    ((NewSDL { goodSDLEnv with glCreateContextResult := Except.error "x" }
       "OpenGL2" initialResState).1.window = none ∧
     (NewSDL { goodSDLEnv with glCreateContextResult := Except.error "x" }
       "OpenGL2" initialResState).1.sdlActive = false) :=
  ⟨rfl, rfl,
   sdl_failed_construction_releases_resources _ "OpenGL2" rfl rfl⟩

/-! ### OpenGL context state and OpenGL3.Render (internal/renderers/OpenGL3.go) -/

/-- GL_TEXTURE0. -/
def GL_TEXTURE0 : Nat := 33984
/-- GL_FUNC_ADD. -/
def GL_FUNC_ADD : Nat := 32774
/-- GL_SRC_ALPHA. -/
def GL_SRC_ALPHA : Nat := 770
/-- GL_ONE_MINUS_SRC_ALPHA. -/
def GL_ONE_MINUS_SRC_ALPHA : Nat := 771
/-- GL_FILL. -/
def GL_FILL : Nat := 6914
/-- GL_TRIANGLES. -/
def GL_TRIANGLES : Nat := 4
/-- GL_UNSIGNED_SHORT. -/
def GL_UNSIGNED_SHORT : Nat := 5123
/-- GL_UNSIGNED_INT. -/
def GL_UNSIGNED_INT : Nat := 5125

/-- A viewport or scissor box (x, y, width, height). -/
structure GLRect where
  x : Int
  y : Int
  w : Int
  h : Int
deriving DecidableEq, Repr

/-- The OpenGL context state Render reads, modifies and restores.  Texture
bindings are per texture unit (indexed by the ACTIVE_TEXTURE enum value, as
glBindTexture targets the active unit); sampler bindings are per texture
unit index (glBindSampler takes the unit index; querying SAMPLER_BINDING
reads the active unit, i.e. index ACTIVE_TEXTURE - GL_TEXTURE0).
nextVertexArrayId models glGenVertexArrays handing out fresh names. -/
structure GLState where
  activeTexture : Nat
  texBinding2D : Nat → Nat
  samplerBinding : Nat → Nat
  currentProgram : Nat
  arrayBuffer : Nat
  elementArrayBuffer : Nat
  vertexArray : Nat
  blendSrcRgb : Nat
  blendDstRgb : Nat
  blendSrcAlpha : Nat
  blendDstAlpha : Nat
  blendEquationRgb : Nat
  blendEquationAlpha : Nat
  blendEnabled : Bool
  cullFaceEnabled : Bool
  depthTestEnabled : Bool
  scissorTestEnabled : Bool
  polygonMode : Nat
  viewport : GLRect
  scissorBox : GLRect
  nextVertexArrayId : Nat

/-- gl.ActiveTexture. -/
def glActiveTexture (s : GLState) (u : Nat) : GLState := { s with activeTexture := u }

/-- gl.BindTexture(gl.TEXTURE_2D, t): binds on the active texture unit. -/
def glBindTexture (s : GLState) (t : Nat) : GLState :=
  { s with texBinding2D := fun u => if u = s.activeTexture then t else s.texBinding2D u }

/-- gl.BindSampler(unit, v). -/
def glBindSampler (s : GLState) (unit v : Nat) : GLState :=
  { s with samplerBinding := fun u => if u = unit then v else s.samplerBinding u }

/-- gl.UseProgram. -/
def glUseProgram (s : GLState) (p : Nat) : GLState := { s with currentProgram := p }

/-- The buffer binding targets Render uses. -/
inductive BufferTarget where
  | array
  | elementArray
deriving DecidableEq, Repr

/-- gl.BindBuffer. -/
def glBindBuffer (s : GLState) (t : BufferTarget) (b : Nat) : GLState :=
  match t with
  | BufferTarget.array => { s with arrayBuffer := b }
  | BufferTarget.elementArray => { s with elementArrayBuffer := b }

/-- gl.BindVertexArray. -/
def glBindVertexArray (s : GLState) (v : Nat) : GLState := { s with vertexArray := v }

/-- The capabilities Render enables or disables. -/
inductive GLCapability where
  | blend
  | cullFace
  | depthTest
  | scissorTest
deriving DecidableEq, Repr

/-- Common body of gl.Enable and gl.Disable. -/
def glSetCap (s : GLState) (c : GLCapability) (v : Bool) : GLState :=
  match c with
  | GLCapability.blend => { s with blendEnabled := v }
  | GLCapability.cullFace => { s with cullFaceEnabled := v }
  | GLCapability.depthTest => { s with depthTestEnabled := v }
  | GLCapability.scissorTest => { s with scissorTestEnabled := v }

/-- gl.Enable. -/
def glEnable (s : GLState) (c : GLCapability) : GLState := glSetCap s c true

/-- gl.Disable. -/
def glDisable (s : GLState) (c : GLCapability) : GLState := glSetCap s c false

/-- gl.BlendEquation: sets the RGB and alpha equations together. -/
def glBlendEquation (s : GLState) (m : Nat) : GLState :=
  { s with blendEquationRgb := m, blendEquationAlpha := m }

/-- gl.BlendFunc: sets the RGB and alpha factors together. -/
def glBlendFunc (s : GLState) (src dst : Nat) : GLState :=
  { s with blendSrcRgb := src, blendDstRgb := dst,
           blendSrcAlpha := src, blendDstAlpha := dst }

/-- gl.BlendEquationSeparate. -/
def glBlendEquationSeparate (s : GLState) (mrgb malpha : Nat) : GLState :=
  { s with blendEquationRgb := mrgb, blendEquationAlpha := malpha }

/-- gl.BlendFuncSeparate. -/
def glBlendFuncSeparate (s : GLState) (srgb drgb salpha dalpha : Nat) : GLState :=
  { s with blendSrcRgb := srgb, blendDstRgb := drgb,
           blendSrcAlpha := salpha, blendDstAlpha := dalpha }

/-- gl.PolygonMode (the face argument is always gl.FRONT_AND_BACK in this
code). -/
def glPolygonMode (s : GLState) (m : Nat) : GLState := { s with polygonMode := m }

/-- gl.Viewport. -/
def glViewport (s : GLState) (x y w h : Int) : GLState :=
  { s with viewport := { x := x, y := y, w := w, h := h } }

/-- gl.Scissor. -/
def glScissor (s : GLState) (x y w h : Int) : GLState :=
  { s with scissorBox := { x := x, y := y, w := w, h := h } }

/-- gl.GenVertexArrays(1, ...): hands out a fresh vertex-array name. -/
def glGenVertexArray (s : GLState) : Nat × GLState :=
  (s.nextVertexArrayId, { s with nextVertexArrayId := s.nextVertexArrayId + 1 })

/-- gl.DeleteVertexArrays(1, v): deleting the bound VAO unbinds it. -/
def glDeleteVertexArray (s : GLState) (v : Nat) : GLState :=
  { s with vertexArray := if s.vertexArray = v then 0 else s.vertexArray }

/-- One imgui draw command (imgui.DrawCommand): callback flag, element
count, index/vertex offsets, texture id and clip rectangle (X, Y, Z, W). -/
structure DrawCmd where
  hasUserCallback : Bool
  elementCount : Nat
  indexOffset : Nat
  vertexOffset : Nat
  textureId : Nat
  clipRectX : Rat
  clipRectY : Rat
  clipRectZ : Rat
  clipRectW : Rat
deriving DecidableEq, Repr

/-- One imgui command list with its vertex/index buffer sizes. -/
structure DrawList where
  vertexBufferSize : Nat
  indexBufferSize : Nat
  commands : List DrawCmd
deriving DecidableEq, Repr

/-- imgui.DrawData: the command lists. -/
structure DrawData where
  lists : List DrawList
deriving DecidableEq, Repr

/-- imgui DrawData.ScaleClipRects on one command: multiplies the clip
rectangle componentwise by the x/y scale (library behavior). -/
def scaleClipRect (sx sy : Rat) (c : DrawCmd) : DrawCmd :=
  { c with clipRectX := c.clipRectX * sx, clipRectY := c.clipRectY * sy,
           clipRectZ := c.clipRectZ * sx, clipRectW := c.clipRectW * sy }

/-- imgui DrawData.ScaleClipRects (library behavior). -/
def scaleClipRects (d : DrawData) (sx sy : Rat) : DrawData :=
  { lists := d.lists.map fun l => { l with commands := l.commands.map (scaleClipRect sx sy) } }

/-- A graphics call Render makes while walking the draw data. -/
inductive GLCall where
  | uploadVertexData (size : Nat)
  | uploadIndexData (size : Nat)
  | bindTextureCall (t : Nat)
  | scissorCall (x y w h : Int)
  | drawElementsCall (mode count drawType byteOffset baseVertex : Nat)
  | userCallbackCall
deriving DecidableEq, Repr

/-- Whether a graphics call belongs to the translation of a single draw
command (as opposed to a per-list buffer upload). -/
def GLCall.isDrawCommandCall : GLCall → Bool
  | GLCall.uploadVertexData _ => false
  | GLCall.uploadIndexData _ => false
  | _ => true

/-- Go conversion int32(f) of a float value: truncation toward zero
(Int.div is t-division). -/
def int32of (q : Rat) : Int := Int.tdiv q.num (q.den : Int)

/-- The body of the inner command loop of OpenGL3.Render for one command:
a user callback is invoked directly; otherwise the command's texture is
bound, the scissor box set from the (already scaled) clip rectangle, and
DrawElementsBaseVertexWithOffset issued. -/
def renderCommand (fbHeight : Rat) (indexSize drawType : Nat) (s : GLState)
    (cmd : DrawCmd) : GLState × List GLCall :=
  if cmd.hasUserCallback then (s, [GLCall.userCallbackCall])
  else
    let s1 := glBindTexture s cmd.textureId
    let s2 := glScissor s1 (int32of cmd.clipRectX)
      (int32of fbHeight - int32of cmd.clipRectW)
      (int32of (cmd.clipRectZ - cmd.clipRectX))
      (int32of (cmd.clipRectW - cmd.clipRectY))
    (s2, [GLCall.bindTextureCall cmd.textureId,
          GLCall.scissorCall (int32of cmd.clipRectX)
            (int32of fbHeight - int32of cmd.clipRectW)
            (int32of (cmd.clipRectZ - cmd.clipRectX))
            (int32of (cmd.clipRectW - cmd.clipRectY)),
          GLCall.drawElementsCall GL_TRIANGLES cmd.elementCount drawType
            (cmd.indexOffset * indexSize) cmd.vertexOffset])

/-- The inner command loop of OpenGL3.Render over one list's commands. -/
def renderCommands (fbHeight : Rat) (indexSize drawType : Nat) :
    GLState → List DrawCmd → GLState × List GLCall
  | s, [] => (s, [])
  | s, c :: rest =>
    let p := renderCommand fbHeight indexSize drawType s c
    let q := renderCommands fbHeight indexSize drawType p.1 rest
    (q.1, p.2 ++ q.2)

/-- The per-list body of OpenGL3.Render: upload the vertex buffer into the
renderer's VBO, the index buffer into its element buffer, then walk the
commands. -/
def renderList (vbo ebo : Nat) (fbHeight : Rat) (indexSize drawType : Nat)
    (s : GLState) (l : DrawList) : GLState × List GLCall :=
  let s1 := glBindBuffer s BufferTarget.array vbo
  let s2 := glBindBuffer s1 BufferTarget.elementArray ebo
  let p := renderCommands fbHeight indexSize drawType s2 l.commands
  (p.1, GLCall.uploadVertexData l.vertexBufferSize ::
        GLCall.uploadIndexData l.indexBufferSize :: p.2)

/-- The outer list loop of OpenGL3.Render. -/
def renderLists (vbo ebo : Nat) (fbHeight : Rat) (indexSize drawType : Nat) :
    GLState → List DrawList → GLState × List GLCall
  | s, [] => (s, [])
  | s, l :: rest =>
    let p := renderList vbo ebo fbHeight indexSize drawType s l
    let q := renderLists vbo ebo fbHeight indexSize drawType p.1 rest
    (q.1, p.2 ++ q.2)

/-- OpenGL3.Render (internal/renderers/OpenGL3.go), followed line by line:
early return on non-positive framebuffer size; clip-rect scaling; GL state
backup; render-state setup, viewport and program; sampler reset; a fresh
VAO; the draw loop; VAO deletion; and the restore sequence.  The
orthographic projection upload, the uniform writes and the vertex-attribute
setup touch program/VAO state outside the saved context state and carry no
modelled effect. -/
def Render (r : GL3Renderer) (displaySize framebufferSize : Rat × Rat)
    (indexSize : Nat) (drawData : DrawData) (s0 : GLState) : GLState × List GLCall :=
  let displayWidth := displaySize.1
  let displayHeight := displaySize.2
  let fbWidth := framebufferSize.1
  let fbHeight := framebufferSize.2
  if fbWidth ≤ 0 ∨ fbHeight ≤ 0 then (s0, [])
  else
    let scaled := scaleClipRects drawData (fbWidth / displayWidth) (fbHeight / displayHeight)
    -- Backup GL state
    let lastActiveTexture := s0.activeTexture
    let s1 := glActiveTexture s0 GL_TEXTURE0
    let lastProgram := s1.currentProgram
    let lastTexture := s1.texBinding2D s1.activeTexture
    let lastSampler := s1.samplerBinding (s1.activeTexture - GL_TEXTURE0)
    let lastArrayBuffer := s1.arrayBuffer
    let lastElementArrayBuffer := s1.elementArrayBuffer
    let lastVertexArray := s1.vertexArray
    let lastPolygonMode := s1.polygonMode
    let lastViewport := s1.viewport
    let lastScissorBox := s1.scissorBox
    let lastBlendSrcRgb := s1.blendSrcRgb
    let lastBlendDstRgb := s1.blendDstRgb
    let lastBlendSrcAlpha := s1.blendSrcAlpha
    let lastBlendDstAlpha := s1.blendDstAlpha
    let lastBlendEquationRgb := s1.blendEquationRgb
    let lastBlendEquationAlpha := s1.blendEquationAlpha
    let lastEnableBlend := s1.blendEnabled
    let lastEnableCullFace := s1.cullFaceEnabled
    let lastEnableDepthTest := s1.depthTestEnabled
    let lastEnableScissorTest := s1.scissorTestEnabled
    -- Setup render state
    let s2 := glEnable s1 GLCapability.blend
    let s3 := glBlendEquation s2 GL_FUNC_ADD
    let s4 := glBlendFunc s3 GL_SRC_ALPHA GL_ONE_MINUS_SRC_ALPHA
    let s5 := glDisable s4 GLCapability.cullFace
    let s6 := glDisable s5 GLCapability.depthTest
    let s7 := glEnable s6 GLCapability.scissorTest
    let s8 := glPolygonMode s7 GL_FILL
    let s9 := glViewport s8 0 0 (int32of fbWidth) (int32of fbHeight)
    let s10 := glUseProgram s9 r.shaderHandle
    let s11 := glBindSampler s10 0 0
    -- Recreate the VAO every time
    let gen := glGenVertexArray s11
    let vao := gen.1
    let s12 := glBindVertexArray gen.2 vao
    let s13 := glBindBuffer s12 BufferTarget.array r.vboHandle
    let drawType := if indexSize = 4 then GL_UNSIGNED_INT else GL_UNSIGNED_SHORT
    -- Draw
    let p := renderLists r.vboHandle r.elementsHandle fbHeight indexSize drawType s13 scaled.lists
    let s14 := glDeleteVertexArray p.1 vao
    -- Restore modified GL state
    let t1 := glUseProgram s14 lastProgram
    let t2 := glBindTexture t1 lastTexture
    let t3 := glBindSampler t2 0 lastSampler
    let t4 := glActiveTexture t3 lastActiveTexture
    let t5 := glBindVertexArray t4 lastVertexArray
    let t6 := glBindBuffer t5 BufferTarget.array lastArrayBuffer
    let t7 := glBindBuffer t6 BufferTarget.elementArray lastElementArrayBuffer
    let t8 := glBlendEquationSeparate t7 lastBlendEquationRgb lastBlendEquationAlpha
    let t9 := glBlendFuncSeparate t8 lastBlendSrcRgb lastBlendDstRgb lastBlendSrcAlpha lastBlendDstAlpha
    let t10 := if lastEnableBlend then glEnable t9 GLCapability.blend else glDisable t9 GLCapability.blend
    let t11 := if lastEnableCullFace then glEnable t10 GLCapability.cullFace else glDisable t10 GLCapability.cullFace
    let t12 := if lastEnableDepthTest then glEnable t11 GLCapability.depthTest else glDisable t11 GLCapability.depthTest
    let t13 := if lastEnableScissorTest then glEnable t12 GLCapability.scissorTest else glDisable t12 GLCapability.scissorTest
    let t14 := glPolygonMode t13 lastPolygonMode
    let t15 := glViewport t14 lastViewport.x lastViewport.y lastViewport.w lastViewport.h
    let t16 := glScissor t15 lastScissorBox.x lastScissorBox.y lastScissorBox.w lastScissorBox.h
    (t16, p.2)

/-- The context-state components the draw loop of Render leaves untouched:
it writes only the buffer bindings, the scissor box and the texture binding
of the active unit, and never changes the active unit itself. -/
structure LoopPreserved (s0 s1 : GLState) : Prop where
  hActive : s1.activeTexture = s0.activeTexture
  hSampler : s1.samplerBinding = s0.samplerBinding
  hProgram : s1.currentProgram = s0.currentProgram
  hVao : s1.vertexArray = s0.vertexArray
  hBsr : s1.blendSrcRgb = s0.blendSrcRgb
  hBdr : s1.blendDstRgb = s0.blendDstRgb
  hBsa : s1.blendSrcAlpha = s0.blendSrcAlpha
  hBda : s1.blendDstAlpha = s0.blendDstAlpha
  hBer : s1.blendEquationRgb = s0.blendEquationRgb
  hBea : s1.blendEquationAlpha = s0.blendEquationAlpha
  hBlend : s1.blendEnabled = s0.blendEnabled
  hCull : s1.cullFaceEnabled = s0.cullFaceEnabled
  hDepth : s1.depthTestEnabled = s0.depthTestEnabled
  hScissorT : s1.scissorTestEnabled = s0.scissorTestEnabled
  hPoly : s1.polygonMode = s0.polygonMode
  hViewport : s1.viewport = s0.viewport
  hNext : s1.nextVertexArrayId = s0.nextVertexArrayId
  hTex : ∀ u, u ≠ s0.activeTexture → s1.texBinding2D u = s0.texBinding2D u

lemma loopPreserved_refl (s : GLState) : LoopPreserved s s :=
  ⟨rfl, rfl, rfl, rfl, rfl, rfl, rfl, rfl, rfl, rfl, rfl, rfl, rfl, rfl, rfl,
   rfl, rfl, fun _ _ => rfl⟩

lemma loopPreserved_trans {a b c : GLState}
    (h1 : LoopPreserved a b) (h2 : LoopPreserved b c) : LoopPreserved a c :=
  ⟨h2.hActive.trans h1.hActive, h2.hSampler.trans h1.hSampler,
   h2.hProgram.trans h1.hProgram, h2.hVao.trans h1.hVao,
   h2.hBsr.trans h1.hBsr, h2.hBdr.trans h1.hBdr, h2.hBsa.trans h1.hBsa,
   h2.hBda.trans h1.hBda, h2.hBer.trans h1.hBer, h2.hBea.trans h1.hBea,
   h2.hBlend.trans h1.hBlend, h2.hCull.trans h1.hCull,
   h2.hDepth.trans h1.hDepth, h2.hScissorT.trans h1.hScissorT,
   h2.hPoly.trans h1.hPoly, h2.hViewport.trans h1.hViewport,
   h2.hNext.trans h1.hNext,
   fun u hu => (h2.hTex u (by rw [h1.hActive]; exact hu)).trans (h1.hTex u hu)⟩

lemma glBindBuffer_loopPreserved (s : GLState) (t : BufferTarget) (b : Nat) :
    LoopPreserved s (glBindBuffer s t b) := by
  cases t <;>
    exact ⟨rfl, rfl, rfl, rfl, rfl, rfl, rfl, rfl, rfl, rfl, rfl, rfl, rfl,
           rfl, rfl, rfl, rfl, fun _ _ => rfl⟩

lemma renderCommand_loopPreserved (fbH : Rat) (isz dt : Nat) (s : GLState)
    (c : DrawCmd) : LoopPreserved s (renderCommand fbH isz dt s c).1 := by
  cases hc : c.hasUserCallback with
  | true => simpa [renderCommand, hc] using loopPreserved_refl s
  | false =>
    simp only [renderCommand, hc, Bool.false_eq_true, if_false]
    exact ⟨rfl, rfl, rfl, rfl, rfl, rfl, rfl, rfl, rfl, rfl, rfl, rfl, rfl,
           rfl, rfl, rfl, rfl, fun u hu => by simp [glScissor, glBindTexture, if_neg hu]⟩

lemma renderCommands_loopPreserved (fbH : Rat) (isz dt : Nat) :
    ∀ (cmds : List DrawCmd) (s : GLState),
      LoopPreserved s (renderCommands fbH isz dt s cmds).1 := by
  intro cmds
  induction cmds with
  | nil => intro s; exact loopPreserved_refl s
  | cons c rest ih =>
    intro s
    exact loopPreserved_trans (renderCommand_loopPreserved fbH isz dt s c) (ih _)

lemma renderList_loopPreserved (vbo ebo : Nat) (fbH : Rat) (isz dt : Nat)
    (s : GLState) (l : DrawList) :
    LoopPreserved s (renderList vbo ebo fbH isz dt s l).1 :=
  loopPreserved_trans (glBindBuffer_loopPreserved s BufferTarget.array vbo)
    (loopPreserved_trans
      (glBindBuffer_loopPreserved _ BufferTarget.elementArray ebo)
      (renderCommands_loopPreserved fbH isz dt l.commands _))

lemma renderLists_loopPreserved (vbo ebo : Nat) (fbH : Rat) (isz dt : Nat) :
    ∀ (ls : List DrawList) (s : GLState),
      LoopPreserved s (renderLists vbo ebo fbH isz dt s ls).1 := by
  intro ls
  induction ls with
  | nil => intro s; exact loopPreserved_refl s
  | cons l rest ih =>
    intro s
    exact loopPreserved_trans (renderList_loopPreserved vbo ebo fbH isz dt s l) (ih _)

lemma renderLists_activeTexture (vbo ebo : Nat) (fbH : Rat) (isz dt : Nat)
    (s : GLState) (ls : List DrawList) :
    (renderLists vbo ebo fbH isz dt s ls).1.activeTexture = s.activeTexture :=
  (renderLists_loopPreserved vbo ebo fbH isz dt ls s).hActive

lemma renderLists_samplerBinding (vbo ebo : Nat) (fbH : Rat) (isz dt : Nat)
    (s : GLState) (ls : List DrawList) :
    (renderLists vbo ebo fbH isz dt s ls).1.samplerBinding = s.samplerBinding :=
  (renderLists_loopPreserved vbo ebo fbH isz dt ls s).hSampler

lemma renderLists_currentProgram (vbo ebo : Nat) (fbH : Rat) (isz dt : Nat)
    (s : GLState) (ls : List DrawList) :
    (renderLists vbo ebo fbH isz dt s ls).1.currentProgram = s.currentProgram :=
  (renderLists_loopPreserved vbo ebo fbH isz dt ls s).hProgram

lemma renderLists_vertexArray (vbo ebo : Nat) (fbH : Rat) (isz dt : Nat)
    (s : GLState) (ls : List DrawList) :
    (renderLists vbo ebo fbH isz dt s ls).1.vertexArray = s.vertexArray :=
  (renderLists_loopPreserved vbo ebo fbH isz dt ls s).hVao

lemma renderLists_blendSrcRgb (vbo ebo : Nat) (fbH : Rat) (isz dt : Nat)
    (s : GLState) (ls : List DrawList) :
    (renderLists vbo ebo fbH isz dt s ls).1.blendSrcRgb = s.blendSrcRgb :=
  (renderLists_loopPreserved vbo ebo fbH isz dt ls s).hBsr

lemma renderLists_blendDstRgb (vbo ebo : Nat) (fbH : Rat) (isz dt : Nat)
    (s : GLState) (ls : List DrawList) :
    (renderLists vbo ebo fbH isz dt s ls).1.blendDstRgb = s.blendDstRgb :=
  (renderLists_loopPreserved vbo ebo fbH isz dt ls s).hBdr

lemma renderLists_blendSrcAlpha (vbo ebo : Nat) (fbH : Rat) (isz dt : Nat)
    (s : GLState) (ls : List DrawList) :
    (renderLists vbo ebo fbH isz dt s ls).1.blendSrcAlpha = s.blendSrcAlpha :=
  (renderLists_loopPreserved vbo ebo fbH isz dt ls s).hBsa

lemma renderLists_blendDstAlpha (vbo ebo : Nat) (fbH : Rat) (isz dt : Nat)
    (s : GLState) (ls : List DrawList) :
    (renderLists vbo ebo fbH isz dt s ls).1.blendDstAlpha = s.blendDstAlpha :=
  (renderLists_loopPreserved vbo ebo fbH isz dt ls s).hBda

lemma renderLists_blendEquationRgb (vbo ebo : Nat) (fbH : Rat) (isz dt : Nat)
    (s : GLState) (ls : List DrawList) :
    (renderLists vbo ebo fbH isz dt s ls).1.blendEquationRgb = s.blendEquationRgb :=
  (renderLists_loopPreserved vbo ebo fbH isz dt ls s).hBer

lemma renderLists_blendEquationAlpha (vbo ebo : Nat) (fbH : Rat) (isz dt : Nat)
    (s : GLState) (ls : List DrawList) :
    (renderLists vbo ebo fbH isz dt s ls).1.blendEquationAlpha = s.blendEquationAlpha :=
  (renderLists_loopPreserved vbo ebo fbH isz dt ls s).hBea

lemma renderLists_blendEnabled (vbo ebo : Nat) (fbH : Rat) (isz dt : Nat)
    (s : GLState) (ls : List DrawList) :
    (renderLists vbo ebo fbH isz dt s ls).1.blendEnabled = s.blendEnabled :=
  (renderLists_loopPreserved vbo ebo fbH isz dt ls s).hBlend

lemma renderLists_cullFaceEnabled (vbo ebo : Nat) (fbH : Rat) (isz dt : Nat)
    (s : GLState) (ls : List DrawList) :
    (renderLists vbo ebo fbH isz dt s ls).1.cullFaceEnabled = s.cullFaceEnabled :=
  (renderLists_loopPreserved vbo ebo fbH isz dt ls s).hCull

lemma renderLists_depthTestEnabled (vbo ebo : Nat) (fbH : Rat) (isz dt : Nat)
    (s : GLState) (ls : List DrawList) :
    (renderLists vbo ebo fbH isz dt s ls).1.depthTestEnabled = s.depthTestEnabled :=
  (renderLists_loopPreserved vbo ebo fbH isz dt ls s).hDepth

lemma renderLists_scissorTestEnabled (vbo ebo : Nat) (fbH : Rat) (isz dt : Nat)
    (s : GLState) (ls : List DrawList) :
    (renderLists vbo ebo fbH isz dt s ls).1.scissorTestEnabled = s.scissorTestEnabled :=
  (renderLists_loopPreserved vbo ebo fbH isz dt ls s).hScissorT

lemma renderLists_polygonMode (vbo ebo : Nat) (fbH : Rat) (isz dt : Nat)
    (s : GLState) (ls : List DrawList) :
    (renderLists vbo ebo fbH isz dt s ls).1.polygonMode = s.polygonMode :=
  (renderLists_loopPreserved vbo ebo fbH isz dt ls s).hPoly

lemma renderLists_viewport (vbo ebo : Nat) (fbH : Rat) (isz dt : Nat)
    (s : GLState) (ls : List DrawList) :
    (renderLists vbo ebo fbH isz dt s ls).1.viewport = s.viewport :=
  (renderLists_loopPreserved vbo ebo fbH isz dt ls s).hViewport

lemma renderLists_nextVertexArrayId (vbo ebo : Nat) (fbH : Rat) (isz dt : Nat)
    (s : GLState) (ls : List DrawList) :
    (renderLists vbo ebo fbH isz dt s ls).1.nextVertexArrayId = s.nextVertexArrayId :=
  (renderLists_loopPreserved vbo ebo fbH isz dt ls s).hNext

lemma renderLists_texBinding2D (vbo ebo : Nat) (fbH : Rat) (isz dt : Nat)
    (s : GLState) (ls : List DrawList) (u : Nat) (hu : u ≠ s.activeTexture) :
    (renderLists vbo ebo fbH isz dt s ls).1.texBinding2D u = s.texBinding2D u :=
  (renderLists_loopPreserved vbo ebo fbH isz dt ls s).hTex u hu

lemma glSetCap_restore (c : Bool) (s : GLState) (x : GLCapability) :
    (if c = true then glEnable s x else glDisable s x) = glSetCap s x c := by
  cases c <;> rfl

/-- Claim C2: for every call to OpenGL3.Render with strictly positive
framebuffer width and height, every piece of OpenGL context state saved at
entry - active texture, current program, 2D texture bindings, sampler
bindings, array-buffer and element-array-buffer bindings, vertex-array
binding, blend equations and blend functions, the
blend/cull-face/depth-test/scissor-test enable flags, polygon mode,
viewport and scissor box - has the same value after Render returns as it
had on entry. -/
theorem render_restores_saved_gl_state :
    ∀ (r : GL3Renderer) (ds fs : Rat × Rat) (isz : Nat) (d : DrawData) (s : GLState),
      0 < fs.1 → 0 < fs.2 →
      ((Render r ds fs isz d s).1.activeTexture = s.activeTexture ∧
       (Render r ds fs isz d s).1.currentProgram = s.currentProgram ∧
       (Render r ds fs isz d s).1.arrayBuffer = s.arrayBuffer ∧
       (Render r ds fs isz d s).1.elementArrayBuffer = s.elementArrayBuffer ∧
       (Render r ds fs isz d s).1.vertexArray = s.vertexArray ∧
       (Render r ds fs isz d s).1.blendEquationRgb = s.blendEquationRgb ∧
       (Render r ds fs isz d s).1.blendEquationAlpha = s.blendEquationAlpha ∧
       (Render r ds fs isz d s).1.blendSrcRgb = s.blendSrcRgb ∧
       (Render r ds fs isz d s).1.blendDstRgb = s.blendDstRgb ∧
       (Render r ds fs isz d s).1.blendSrcAlpha = s.blendSrcAlpha ∧
       (Render r ds fs isz d s).1.blendDstAlpha = s.blendDstAlpha ∧
       (Render r ds fs isz d s).1.blendEnabled = s.blendEnabled ∧
       (Render r ds fs isz d s).1.cullFaceEnabled = s.cullFaceEnabled ∧
       (Render r ds fs isz d s).1.depthTestEnabled = s.depthTestEnabled ∧
       (Render r ds fs isz d s).1.scissorTestEnabled = s.scissorTestEnabled ∧
       (Render r ds fs isz d s).1.polygonMode = s.polygonMode ∧
       (Render r ds fs isz d s).1.viewport = s.viewport ∧
       (Render r ds fs isz d s).1.scissorBox = s.scissorBox ∧
       (∀ u, (Render r ds fs isz d s).1.texBinding2D u = s.texBinding2D u) ∧
       (∀ u, (Render r ds fs isz d s).1.samplerBinding u = s.samplerBinding u)) := by
  intro r ds fs isz d s h1 h2
  have hcond : ¬ (fs.1 ≤ 0 ∨ fs.2 ≤ 0) := by
    push_neg
    exact ⟨h1, h2⟩
  refine ⟨?_, ?_, ?_, ?_, ?_, ?_, ?_, ?_, ?_, ?_, ?_, ?_, ?_, ?_, ?_, ?_, ?_,
          ?_, ?t2d, ?smp⟩
  case t2d =>
    intro u
    simp only [Render, if_neg hcond, glSetCap_restore]
    by_cases hu : u = GL_TEXTURE0
    · simp [glActiveTexture, glBindTexture, glBindSampler, glUseProgram,
        glBindBuffer, glBindVertexArray, glSetCap, glEnable, glDisable, glBlendEquation, glBlendFunc,
        glBlendEquationSeparate, glBlendFuncSeparate, glPolygonMode, glViewport,
        glScissor, glGenVertexArray, glDeleteVertexArray,
        renderLists_activeTexture, hu]
    · simp [glActiveTexture, glBindTexture, glBindSampler, glUseProgram,
        glBindBuffer, glBindVertexArray, glSetCap, glEnable, glDisable, glBlendEquation, glBlendFunc,
        glBlendEquationSeparate, glBlendFuncSeparate, glPolygonMode, glViewport,
        glScissor, glGenVertexArray, glDeleteVertexArray,
        renderLists_activeTexture, renderLists_texBinding2D, hu]
  case smp =>
    intro u
    simp only [Render, if_neg hcond, glSetCap_restore]
    by_cases hu : u = 0
    · simp [glActiveTexture, glBindTexture, glBindSampler, glUseProgram,
        glBindBuffer, glBindVertexArray, glSetCap, glEnable, glDisable, glBlendEquation, glBlendFunc,
        glBlendEquationSeparate, glBlendFuncSeparate, glPolygonMode, glViewport,
        glScissor, glGenVertexArray, glDeleteVertexArray,
        renderLists_samplerBinding, hu, GL_TEXTURE0]
    · simp [glActiveTexture, glBindTexture, glBindSampler, glUseProgram,
        glBindBuffer, glBindVertexArray, glSetCap, glEnable, glDisable, glBlendEquation, glBlendFunc,
        glBlendEquationSeparate, glBlendFuncSeparate, glPolygonMode, glViewport,
        glScissor, glGenVertexArray, glDeleteVertexArray,
        renderLists_samplerBinding, hu, GL_TEXTURE0]
  all_goals simp only [Render, if_neg hcond]
  all_goals simp only [glSetCap_restore]
  all_goals
    simp [glActiveTexture, glBindTexture, glBindSampler, glUseProgram,
      glBindBuffer, glBindVertexArray, glSetCap, glEnable, glDisable, glBlendEquation, glBlendFunc,
      glBlendEquationSeparate, glBlendFuncSeparate, glPolygonMode, glViewport,
      glScissor, glGenVertexArray, glDeleteVertexArray,
      renderLists_activeTexture, renderLists_samplerBinding,
      renderLists_currentProgram, renderLists_vertexArray,
      renderLists_blendSrcRgb, renderLists_blendDstRgb,
      renderLists_blendSrcAlpha, renderLists_blendDstAlpha,
      renderLists_blendEquationRgb, renderLists_blendEquationAlpha,
      renderLists_blendEnabled, renderLists_cullFaceEnabled,
      renderLists_depthTestEnabled, renderLists_scissorTestEnabled,
      renderLists_polygonMode, renderLists_viewport,
      renderLists_nextVertexArrayId]

/-- A concrete OpenGL context state used by witnesses. -/
def glStateExample : GLState :=
  { activeTexture := 5, texBinding2D := fun _ => 2, samplerBinding := fun _ => 3,
    currentProgram := 4, arrayBuffer := 6, elementArrayBuffer := 7,
    vertexArray := 8, blendSrcRgb := 1, blendDstRgb := 1, blendSrcAlpha := 1,
    blendDstAlpha := 1, blendEquationRgb := 1, blendEquationAlpha := 1,
    blendEnabled := true, cullFaceEnabled := true, depthTestEnabled := false,
    scissorTestEnabled := false, polygonMode := 9,
    viewport := { x := 0, y := 0, w := 100, h := 100 },
    scissorBox := { x := 1, y := 2, w := 3, h := 4 }, nextVertexArrayId := 10 }

/-- A concrete renderer used by witnesses. -/
def gl3RendererExample : GL3Renderer :=
  { glslVersion := "#version 150", fontTexture := 11, shaderHandle := 12,
    vertHandle := 13, fragHandle := 14, attribLocationTex := 0,
    attribLocationProjMtx := 1, attribLocationPosition := 2,
    attribLocationUV := 3, attribLocationColor := 4, vboHandle := 15,
    elementsHandle := 16 }

/-- Concrete draw data used by witnesses: one list with one ordinary
command and one user-callback command. -/
def drawDataExample : DrawData :=
  { lists := [
    { vertexBufferSize := 80, indexBufferSize := 12,
      commands := [
        { hasUserCallback := false, elementCount := 6, indexOffset := 3,
          vertexOffset := 2, textureId := 11, clipRectX := 0, clipRectY := 0,
          clipRectZ := 640, clipRectW := 480 },
        { hasUserCallback := true, elementCount := 0, indexOffset := 0,
          vertexOffset := 0, textureId := 0, clipRectX := 0, clipRectY := 0,
          clipRectZ := 0, clipRectW := 0 }] }] }

/-- Witness for C2 on a concrete Render call. -/
theorem render_restores_saved_gl_state_witness :
    (0 : Rat) < (((640 : Rat), (480 : Rat)) : Rat × Rat).1 ∧
    (0 : Rat) < (((640 : Rat), (480 : Rat)) : Rat × Rat).2 ∧
    (Render gl3RendererExample (640, 480) (640, 480) 2 drawDataExample
        glStateExample).1.activeTexture = glStateExample.activeTexture :=
  ⟨by decide, by decide,
   (render_restores_saved_gl_state gl3RendererExample (640, 480) (640, 480) 2
      drawDataExample glStateExample (by decide) (by decide)).1⟩

/-- The graphics calls claim C6 expects for one (already clip-scaled) draw
command, written from the claim: a command with a user callback invokes the
callback and produces no draw call; any other command binds the command's
texture, sets the command's scissor rectangle, and issues exactly one
DrawElements call whose element count equals the command's element count,
whose byte offset equals the command's index offset times the index size
and whose base vertex equals the command's vertex offset. -/
def expectedCommandCalls (fbHeight : Rat) (indexSize drawType : Nat)
    (cmd : DrawCmd) : List GLCall :=
  if cmd.hasUserCallback then [GLCall.userCallbackCall]
  else
    [GLCall.bindTextureCall cmd.textureId,
     GLCall.scissorCall (int32of cmd.clipRectX)
       (int32of fbHeight - int32of cmd.clipRectW)
       (int32of (cmd.clipRectZ - cmd.clipRectX))
       (int32of (cmd.clipRectW - cmd.clipRectY)),
     GLCall.drawElementsCall GL_TRIANGLES cmd.elementCount drawType
       (cmd.indexOffset * indexSize) cmd.vertexOffset]

lemma renderCommand_trace (fbH : Rat) (isz dt : Nat) (s : GLState) (c : DrawCmd) :
    (renderCommand fbH isz dt s c).2 = expectedCommandCalls fbH isz dt c := by
  cases hc : c.hasUserCallback <;> simp [renderCommand, expectedCommandCalls, hc]

lemma renderCommands_trace (fbH : Rat) (isz dt : Nat) :
    ∀ (cmds : List DrawCmd) (s : GLState),
      (renderCommands fbH isz dt s cmds).2
        = cmds.flatMap (expectedCommandCalls fbH isz dt) := by
  intro cmds
  induction cmds with
  | nil => intro s; rfl
  | cons c rest ih =>
    intro s
    simp only [renderCommands, List.flatMap_cons]
    rw [renderCommand_trace, ih]

lemma expectedCommandCalls_drawCalls (fbH : Rat) (isz dt : Nat) (c : DrawCmd) :
    ∀ x ∈ expectedCommandCalls fbH isz dt c, GLCall.isDrawCommandCall x = true := by
  cases hc : c.hasUserCallback <;>
    simp [expectedCommandCalls, hc, GLCall.isDrawCommandCall]

lemma renderList_trace_filter (vbo ebo : Nat) (fbH : Rat) (isz dt : Nat)
    (s : GLState) (l : DrawList) :
    (renderList vbo ebo fbH isz dt s l).2.filter GLCall.isDrawCommandCall
      = l.commands.flatMap (expectedCommandCalls fbH isz dt) := by
  have hl : (renderList vbo ebo fbH isz dt s l).2
      = GLCall.uploadVertexData l.vertexBufferSize ::
        GLCall.uploadIndexData l.indexBufferSize ::
        (renderCommands fbH isz dt (glBindBuffer (glBindBuffer s BufferTarget.array vbo)
          BufferTarget.elementArray ebo) l.commands).2 := rfl
  rw [hl]
  simp only [List.filter_cons]
  rw [renderCommands_trace]
  simp only [GLCall.isDrawCommandCall, Bool.false_eq_true, if_false]
  exact List.filter_eq_self.mpr fun x hx =>
    expectedCommandCalls_drawCalls fbH isz dt _ x
      (List.mem_flatMap.mp hx).choose_spec.2

lemma renderLists_trace_filter (vbo ebo : Nat) (fbH : Rat) (isz dt : Nat) :
    ∀ (ls : List DrawList) (s : GLState),
      (renderLists vbo ebo fbH isz dt s ls).2.filter GLCall.isDrawCommandCall
        = ls.flatMap (fun l => l.commands.flatMap (expectedCommandCalls fbH isz dt)) := by
  intro ls
  induction ls with
  | nil => intro s; rfl
  | cons l rest ih =>
    intro s
    simp only [renderLists, List.flatMap_cons, List.filter_append]
    rw [renderList_trace_filter, ih]

/-- Claim C6: for every draw data passed to OpenGL3.Render with positive
framebuffer size, the command lists and their commands translate to
graphics calls in order: each command without a user callback produces
exactly one DrawElements call with the command's element count, its index
offset times the index size as byte offset and its vertex offset as base
vertex, issued after binding the command's texture and setting the
command's scissor rectangle; each command with a user callback invokes the
callback and produces no draw call. -/
theorem render_translates_draw_commands :
    ∀ (r : GL3Renderer) (ds fs : Rat × Rat) (isz : Nat) (d : DrawData) (s : GLState),
      0 < fs.1 → 0 < fs.2 →
      (Render r ds fs isz d s).2.filter GLCall.isDrawCommandCall
        = (scaleClipRects d (fs.1 / ds.1) (fs.2 / ds.2)).lists.flatMap
            (fun l => l.commands.flatMap (expectedCommandCalls fs.2 isz
              (if isz = 4 then GL_UNSIGNED_INT else GL_UNSIGNED_SHORT))) := by
  intro r ds fs isz d s h1 h2
  have hcond : ¬ (fs.1 ≤ 0 ∨ fs.2 ≤ 0) := by
    push_neg
    exact ⟨h1, h2⟩
  simp only [Render, if_neg hcond]
  exact renderLists_trace_filter _ _ _ _ _ _ _

/-- Witness for C6 on a concrete Render call. -/
theorem render_translates_draw_commands_witness :
    (0 : Rat) < (((640 : Rat), (480 : Rat)) : Rat × Rat).1 ∧
    (0 : Rat) < (((640 : Rat), (480 : Rat)) : Rat × Rat).2 ∧
    (Render gl3RendererExample (640, 480) (640, 480) 2 drawDataExample
        glStateExample).2.filter GLCall.isDrawCommandCall
      = (scaleClipRects drawDataExample ((640 : Rat) / 640) ((480 : Rat) / 480)).lists.flatMap
          (fun l => l.commands.flatMap (expectedCommandCalls 480 2
            (if 2 = 4 then GL_UNSIGNED_INT else GL_UNSIGNED_SHORT))) :=
  ⟨by decide, by decide,
   render_translates_draw_commands gl3RendererExample (640, 480) (640, 480) 2
     drawDataExample glStateExample (by decide) (by decide)⟩

end ImguiExamples
